import Mathlib

/-!
Shallow embedding of the `PathCaptcha_FHE` Solidity contract.

Encrypted 32-bit values (`euint32`) are modelled by their plaintext
contents as `Nat` reduced modulo `2 ^ 32`; encrypted booleans (`ebool`)
by `Bool`.  Every homomorphic primitive of the FHE library is modelled
by the corresponding plaintext operation, which is exactly the
homomorphic-correctness contract of the library: the decryption of the
circuit output equals the same computation on the plaintexts.

Contract storage is a record of the counters and the four Solidity
mappings; a Solidity mapping is a total function with the zero value of
its range as default.  A reverting call (a failed `require`, a failed
signature check, or an array-bounds panic) is modelled as `none` /
`Except.error`: the EVM rolls the whole call back, so an erroring call
leaves the caller-visible state untouched.
-/

/-- Modulus of `euint32` arithmetic. -/
def u32Mod : Nat := 2 ^ 32

/-- Plaintext semantics of `FHE.sub` on `euint32`: wrapping subtraction. -/
def fheSub (a b : Nat) : Nat := (a % u32Mod + (u32Mod - b % u32Mod)) % u32Mod

/-- Plaintext semantics of `FHE.eq` on `euint32`. -/
def fheEq (a b : Nat) : Bool := a % u32Mod == b % u32Mod

/-- Mirrors `struct EncryptedMaze` (grid cells, start/end coordinates as plaintexts). -/
structure EncryptedMaze where
  mazeId : Nat
  encryptedGrid : List (List Nat)
  encryptedStartX : Nat
  encryptedStartY : Nat
  encryptedEndX : Nat
  encryptedEndY : Nat
  timestamp : Nat
deriving DecidableEq, Repr

/-- Mirrors `struct EncryptedSolution`. -/
structure EncryptedSolution where
  solutionId : Nat
  encryptedPathX : List Nat
  encryptedPathY : List Nat
  mazeId : Nat
deriving DecidableEq, Repr

/-- Mirrors `struct DecryptedVerification`. -/
structure DecryptedVerification where
  isValid : Bool
  isRevealed : Bool
deriving DecidableEq, Repr

/-- Events emitted by the contract. -/
inductive ContractEvent where
  | MazeGenerated (mazeId timestamp : Nat)
  | SolutionSubmitted (solutionId mazeId : Nat)
  | VerificationComplete (solutionId : Nat)
deriving DecidableEq, Repr

/-- Revert reasons of the contract entry points: the two `require`
messages of `decryptVerification` and the revert raised by
`FHE.checkSignatures` on a bad proof. -/
inductive ContractError where
  | UnknownRequest
  | AlreadyVerified
  | InvalidProof
deriving DecidableEq, Repr

/-- Point update of a Solidity mapping. -/
def mapSet {α : Type} (m : Nat → α) (k : Nat) (v : α) : Nat → α :=
  fun q => if q = k then v else m q

/-- Contract storage: counters and the four mappings. -/
structure ContractState where
  mazeCount : Nat
  solutionCount : Nat
  encryptedMazes : Nat → EncryptedMaze
  encryptedSolutions : Nat → EncryptedSolution
  solutionVerifications : Nat → DecryptedVerification
  requestToSolutionId : Nat → Nat

/-- Zero value of `EncryptedMaze`: default of the `encryptedMazes` mapping. -/
def emptyMaze : EncryptedMaze := ⟨0, [], 0, 0, 0, 0, 0⟩

/-- Zero value of `EncryptedSolution`: default of the `encryptedSolutions` mapping. -/
def emptySolution : EncryptedSolution := ⟨0, [], [], 0⟩

/-- Zero value of `DecryptedVerification`. -/
def emptyVerification : DecryptedVerification := ⟨false, false⟩

/-- Freshly deployed contract: zero counters, all mappings at their defaults. -/
def initialState : ContractState :=
  ⟨0, 0, fun _ => emptyMaze, fun _ => emptySolution, fun _ => emptyVerification, fun _ => 0⟩

/-- Mirrors `generateEncryptedMaze`: increments `mazeCount`, stores the maze
under the new id, emits `MazeGenerated`.  The Solidity body performs no
check whatsoever on the grid, so the model cannot fail. -/
def generateEncryptedMaze (s : ContractState) (encryptedGrid : List (List Nat))
    (sx sy ex ey : Nat) (blockTimestamp : Nat) : ContractState × List ContractEvent :=
  let newId := s.mazeCount + 1
  ({ s with
      mazeCount := newId,
      encryptedMazes := mapSet s.encryptedMazes newId
        ⟨newId, encryptedGrid, sx, sy, ex, ey, blockTimestamp⟩ },
   [ContractEvent.MazeGenerated newId blockTimestamp])

/-- Mirrors `submitEncryptedSolution`: increments `solutionCount`, stores the
solution and a fresh `{isValid := false, isRevealed := false}` verification
record, emits `SolutionSubmitted`.  The Solidity body checks neither the
maze id nor the path length, so the model cannot fail. -/
def submitEncryptedSolution (s : ContractState) (mazeId : Nat)
    (pathX pathY : List Nat) : ContractState × List ContractEvent :=
  let newId := s.solutionCount + 1
  ({ s with
      solutionCount := newId,
      encryptedSolutions := mapSet s.encryptedSolutions newId ⟨newId, pathX, pathY, mazeId⟩,
      solutionVerifications := mapSet s.solutionVerifications newId ⟨false, false⟩ },
   [ContractEvent.SolutionSubmitted newId mazeId])

/-- The `maze.encryptedGrid[0][0]` access of the loop body: `none` models the
array-bounds panic when the grid or its first row is empty. -/
def gridCell00 (maze : EncryptedMaze) : Option Nat :=
  match maze.encryptedGrid with
  | [] => none
  | row :: _ =>
    match row with
    | [] => none
    | c :: _ => some c

/-- The `for (uint256 i = 1; i < pathX.length; i++)` loop of `verifySolution`,
carried out on plaintexts.  Each iteration ANDs into the accumulator the
step indicator `(pathX[i] - pathX[i-1] == 1) || (pathY[i] - pathY[i-1] == 1)`
and the placeholder open-cell indicator `grid[0][0] == 0`; `none` models a
bounds panic on `pathY` or on the grid.  `fuel` is an upper bound on the
remaining iterations; every call supplies `pathX.length`, which suffices. -/
def verifyLoop (maze : EncryptedMaze) (pathX pathY : List Nat) :
    Nat → Nat → Bool → Option Bool
  | 0, _, acc => some acc
  | fuel + 1, i, acc =>
    if i < pathX.length then
      match pathX.get? i, pathX.get? (i - 1), pathY.get? i, pathY.get? (i - 1) with
      | some xi, some xp, some yi, some yp =>
        let adjacent := fheEq (fheSub xi xp) 1 || fheEq (fheSub yi yp) 1
        match gridCell00 maze with
        | some cell =>
          verifyLoop maze pathX pathY fuel (i + 1) ((acc && adjacent) && fheEq cell 0)
        | none => none
      | _, _, _, _ => none
    else some acc

/-- Plaintext value of the `isValid` ciphertext built by `verifySolution`:
start check AND end check AND the loop conjuncts; `none` models a revert
(array-bounds panic) while building the circuit. -/
def runCircuit (maze : EncryptedMaze) (pathX pathY : List Nat) : Option Bool :=
  match pathX.get? 0, pathY.get? 0 with
  | some x0, some y0 =>
    let validStart := fheEq x0 maze.encryptedStartX && fheEq y0 maze.encryptedStartY
    let v1 := true && validStart
    let lastIdx := pathX.length - 1
    match pathX.get? lastIdx, pathY.get? lastIdx with
    | some xl, some yl =>
      let validEnd := fheEq xl maze.encryptedEndX && fheEq yl maze.encryptedEndY
      verifyLoop maze pathX pathY pathX.length 1 (v1 && validEnd)
    | _, _ => none
  | _, _ => none

/-- Mirrors `verifySolution(solutionId)`.  `reqId` is the request identifier
returned by `FHE.requestDecryption`, supplied by the oracle environment.
On success the pending entry `requestToSolutionId[reqId] = solutionId` is
recorded and the plaintext of the decryption payload is returned; `none`
models the call reverting (no state change, no request issued). -/
def verifySolution (s : ContractState) (solutionId reqId : Nat) :
    Option (ContractState × Bool) :=
  let sol := s.encryptedSolutions solutionId
  let maze := s.encryptedMazes sol.mazeId
  match runCircuit maze sol.encryptedPathX sol.encryptedPathY with
  | some b =>
    some ({ s with requestToSolutionId := mapSet s.requestToSolutionId reqId solutionId }, b)
  | none => none

/-- Caller-visible storage after a `verifySolution` call: the new storage on
success, the unchanged storage when the call reverts. -/
def verifySolutionFinal (s : ContractState) (solutionId reqId : Nat) : ContractState :=
  match verifySolution s solutionId reqId with
  | some (s2, _) => s2
  | none => s

/-- Mirrors `decryptVerification(requestId, cleartexts, proof)`.  `cleartexts`
is modelled by the boolean it ABI-decodes to; `proofOk` is the outcome of the
external `FHE.checkSignatures(requestId, cleartexts, proof)` call, which
reverts exactly when the proof does not verify against the request. -/
def decryptVerification (s : ContractState) (requestId : Nat)
    (cleartexts : Bool) (proofOk : Bool) : Except ContractError (ContractState × List ContractEvent) :=
  let solutionId := s.requestToSolutionId requestId
  if solutionId = 0 then
    .error .UnknownRequest
  else
    let verification := s.solutionVerifications solutionId
    if verification.isRevealed then
      .error .AlreadyVerified
    else if proofOk = false then
      .error .InvalidProof
    else
      .ok ({ s with
              solutionVerifications :=
                mapSet s.solutionVerifications solutionId ⟨cleartexts, true⟩ },
           [ContractEvent.VerificationComplete solutionId])

/-- Caller-visible storage after a `decryptVerification` call: the new storage
on success, the unchanged storage when the call reverts. -/
def decryptVerificationFinal (s : ContractState) (requestId : Nat)
    (cleartexts : Bool) (proofOk : Bool) : ContractState :=
  match decryptVerification s requestId cleartexts proofOk with
  | .ok (s2, _) => s2
  | .error _ => s

/-- Boolean success test for `Except`. -/
def exceptOk {ε α : Type} : Except ε α → Bool
  | .ok _ => true
  | .error _ => false

/-- Mirrors `getVerificationResult`. -/
def getVerificationResult (s : ContractState) (solutionId : Nat) : Bool × Bool :=
  let v := s.solutionVerifications solutionId
  (v.isValid, v.isRevealed)

/-- Mirrors the `checkPathAdjacency` helper of the contract. -/
def checkPathAdjacency (x1 y1 x2 y2 : Nat) : Bool :=
  fheEq (fheSub x1 x2) 1 || fheEq (fheSub y1 y2) 1

/-- Decrypted value of the `isValid` ciphertext a `verifySolution` call hands
to the decryption oracle, `none` when the call reverts. -/
def verifyOutcome (s : ContractState) (solutionId reqId : Nat) : Option Bool :=
  (verifySolution s solutionId reqId).map Prod.snd

/-!
Concrete scenario states used by counterexamples and witnesses.
-/

/-- Scenario for a diagonal step: 2×2 all-open maze, start (0,0), end (1,1),
submitted path [(0,0),(1,1)], whose single step changes both coordinates. -/
def diagonalState : ContractState :=
  (submitEncryptedSolution (generateEncryptedMaze initialState [[0, 0], [0, 0]] 0 0 1 1 0).1
    1 [0, 1] [0, 1]).1

/-- Scenario for a decreasing axis-aligned step: start (1,0), end (0,0),
submitted path [(1,0),(0,0)], a legal unit move with row-delta minus one. -/
def backStepState : ContractState :=
  (submitEncryptedSolution (generateEncryptedMaze initialState [[0, 0], [0, 0]] 1 0 0 0 0).1
    1 [1, 0] [0, 0]).1

/-- Scenario of the wall-crossing test of the spec: 3×3 maze whose cell (1,0)
is a wall, start (0,0), end (2,2), path [(0,0),(1,0),(2,0),(2,1),(2,2)]
passing through the wall cell. -/
def wallCrossState : ContractState :=
  (submitEncryptedSolution
    (generateEncryptedMaze initialState [[0, 0, 0], [1, 0, 0], [0, 0, 0]] 0 0 2 2 0).1
    1 [0, 1, 2, 2, 2] [0, 0, 0, 1, 2]).1

/-- Scenario with a wall only at cell (0,0): start (0,1), end (1,1),
path [(0,1),(1,1)] that never visits the wall cell. -/
def wallAvoidState : ContractState :=
  (submitEncryptedSolution (generateEncryptedMaze initialState [[1, 0], [0, 0]] 0 1 1 1 0).1
    1 [0, 1] [1, 1]).1

/-- Witness scenario: a 3×3 all-open maze, start (0,0), end (2,2). -/
def wMazeState : ContractState :=
  (generateEncryptedMaze initialState [[0, 0, 0], [0, 0, 0], [0, 0, 0]] 0 0 2 2 0).1

/-- Witness scenario after submitting the axis-aligned path
[(0,0),(1,0),(2,0),(2,1),(2,2)] against maze 1. -/
def wSubmitState : ContractState :=
  (submitEncryptedSolution wMazeState 1 [0, 1, 2, 2, 2] [0, 0, 0, 1, 2]).1

/-- Witness scenario after a verification request for solution 1 answered by
the oracle with request id 7. -/
def wPendingState : ContractState := verifySolutionFinal wSubmitState 1 7

/-- Scenario for the missing-precondition checks: a solution with the single
point (3,4) submitted against maze id 5 on a fresh contract, where maze 5
was never created. -/
def orphanSubmitState : ContractState := (submitEncryptedSolution initialState 5 [3] [4]).1

/-- Scenario after a verification request for the orphan solution, request id 7. -/
def orphanPendingState : ContractState := verifySolutionFinal orphanSubmitState 1 7

/-- Scenario after the orphan solution was revealed through the oracle callback. -/
def orphanRevealedState : ContractState := decryptVerificationFinal orphanPendingState 7 true true

/-!
Claim theorems.
-/

/-- Claim C1: the claim says the per-step indicator AND-ed into `isValid` is
true exactly on the four axis-aligned unit moves, and that a diagonal step
forces `isValid` to decrypt to false.  The code computes the indicator as
`(pathX[i] - pathX[i-1] == 1) || (pathY[i] - pathY[i-1] == 1)`: on the
diagonal scenario the circuit decrypts to true, on the legal decreasing step
it decrypts to false, and the `checkPathAdjacency` helper likewise accepts
the diagonal pair. -/
theorem c1_step_indicator_wrong :
    verifyOutcome diagonalState 1 7 = some true
    ∧ verifyOutcome backStepState 1 7 = some false
    ∧ checkPathAdjacency 1 1 0 0 = true := by decide

/-- Claim C2: the claim says every visited coordinate is checked against the
maze cell it actually addresses, via an oblivious gather.  The code instead
reads the fixed cell `grid[0][0]` for every step: the wall-crossing scenario
(wall at (1,0), path through it) decrypts to true, and a path that stays on
open cells of a maze whose only wall is at (0,0) decrypts to false. -/
theorem c2_open_cell_check_is_static :
    verifyOutcome wallCrossState 1 7 = some true
    ∧ verifyOutcome wallAvoidState 1 7 = some false := by decide

/-- Claim C5 counterexample: the claim says maze creation fails with
`InvalidDimensions` on an empty grid, inserting nothing and emitting nothing.
On a fresh contract, creating a maze with the empty grid succeeds: the
counter moves to 1, the maze is stored, and `MazeGenerated` is emitted. -/
theorem c5_empty_grid_accepted :
    (generateEncryptedMaze initialState [] 0 0 0 0 0).1.mazeCount = 1
    ∧ (generateEncryptedMaze initialState [] 0 0 0 0 0).1.encryptedMazes 1
        = ⟨1, [], 0, 0, 0, 0, 0⟩
    ∧ (generateEncryptedMaze initialState [] 0 0 0 0 0).2
        = [ContractEvent.MazeGenerated 1 0] := by decide

/-- Claim C5 amended: `generateEncryptedMaze` performs no structural check at
all.  For every state and every grid, empty or ragged included, it increments
the counter, stores the maze verbatim under the new id, and emits
`MazeGenerated`. -/
theorem c5_no_dimension_check (s : ContractState) (grid : List (List Nat))
    (sx sy ex ey ts : Nat) :
    (generateEncryptedMaze s grid sx sy ex ey ts).1.mazeCount = s.mazeCount + 1
    ∧ (generateEncryptedMaze s grid sx sy ex ey ts).1.encryptedMazes (s.mazeCount + 1)
        = ⟨s.mazeCount + 1, grid, sx, sy, ex, ey, ts⟩
    ∧ (generateEncryptedMaze s grid sx sy ex ey ts).2
        = [ContractEvent.MazeGenerated (s.mazeCount + 1) ts] := by
  refine ⟨rfl, ?_, rfl⟩
  simp [generateEncryptedMaze, mapSet]

/-- Claim C6 counterexample: the claim says submission fails with
`UnknownMaze` on an unregistered maze id and with `EmptyPath` on a
zero-length path.  On a fresh contract, where no maze exists, submitting an
empty path against maze id 999 succeeds: solution id 1 is allocated, the
solution is stored, and `SolutionSubmitted` is emitted. -/
theorem c6_unchecked_submission_accepted :
    initialState.mazeCount = 0
    ∧ (submitEncryptedSolution initialState 999 [] []).1.solutionCount = 1
    ∧ (submitEncryptedSolution initialState 999 [] []).1.encryptedSolutions 1
        = ⟨1, [], [], 999⟩
    ∧ (submitEncryptedSolution initialState 999 [] []).2
        = [ContractEvent.SolutionSubmitted 1 999] := by decide

/-- Claim C6 amended: `submitEncryptedSolution` checks neither the maze id
nor the path length.  For every state, maze id and path, it allocates the
next solution id, stores the solution verbatim, initializes its verification
record as unrevealed, and emits `SolutionSubmitted`. -/
theorem c6_no_submission_checks (s : ContractState) (mazeId : Nat)
    (px py : List Nat) :
    (submitEncryptedSolution s mazeId px py).1.solutionCount = s.solutionCount + 1
    ∧ (submitEncryptedSolution s mazeId px py).1.encryptedSolutions (s.solutionCount + 1)
        = ⟨s.solutionCount + 1, px, py, mazeId⟩
    ∧ (submitEncryptedSolution s mazeId px py).1.solutionVerifications (s.solutionCount + 1)
        = ⟨false, false⟩
    ∧ (submitEncryptedSolution s mazeId px py).2
        = [ContractEvent.SolutionSubmitted (s.solutionCount + 1) mazeId] := by
  refine ⟨rfl, ?_, ?_, rfl⟩ <;> simp [submitEncryptedSolution, mapSet]

/-- Claim C3: submission initializes the verification record as
`{isValid := false, isRevealed := false}`; a first `decryptVerification` on a
pending, unrevealed request with a verifying proof succeeds and writes
`{isValid := cleartext, isRevealed := true}`; a second call on the same
request id fails with `AlreadyVerified` whatever its arguments, so
`isRevealed` flips false to true at most once and `isValid` is write-once. -/
theorem c3_reveal_write_once (s : ContractState) (m : Nat) (px py : List Nat)
    (r : Nat) (c c2 : Bool) (p2 : Bool)
    (h1 : s.requestToSolutionId r ≠ 0)
    (h2 : (s.solutionVerifications (s.requestToSolutionId r)).isRevealed = false) :
    (submitEncryptedSolution s m px py).1.solutionVerifications (s.solutionCount + 1)
        = ⟨false, false⟩
    ∧ exceptOk (decryptVerification s r c true) = true
    ∧ (decryptVerificationFinal s r c true).solutionVerifications (s.requestToSolutionId r)
        = ⟨c, true⟩
    ∧ decryptVerification (decryptVerificationFinal s r c true) r c2 p2
        = .error .AlreadyVerified := by
  refine ⟨?_, ?_, ?_, ?_⟩
  · simp [submitEncryptedSolution, mapSet]
  · simp [decryptVerification, h1, h2, exceptOk]
  · simp [decryptVerification, decryptVerificationFinal, h1, h2, mapSet]
  · simp [decryptVerification, decryptVerificationFinal, h1, h2, mapSet]

/-- Witness for claim C3 at the concrete pending scenario, request id 7. -/
theorem c3_reveal_write_once_witness :
    (wPendingState.requestToSolutionId 7 ≠ 0
      ∧ (wPendingState.solutionVerifications (wPendingState.requestToSolutionId 7)).isRevealed
          = false)
    ∧ ((submitEncryptedSolution wPendingState 1 [0] [0]).1.solutionVerifications
          (wPendingState.solutionCount + 1) = ⟨false, false⟩
      ∧ exceptOk (decryptVerification wPendingState 7 true true) = true
      ∧ (decryptVerificationFinal wPendingState 7 true true).solutionVerifications
          (wPendingState.requestToSolutionId 7) = ⟨true, true⟩
      ∧ decryptVerification (decryptVerificationFinal wPendingState 7 true true) 7 false false
          = .error .AlreadyVerified) :=
  ⟨⟨by decide, by decide⟩,
    c3_reveal_write_once wPendingState 1 [0] [0] 7 true false false (by decide) (by decide)⟩

/-- Claim C4: on a pending, unrevealed request, a callback whose proof does
not verify (the external `FHE.checkSignatures` reverts) fails with
`InvalidProof` and leaves the storage exactly as it was; in particular the
verification record stays unrevealed and unwritten. -/
theorem c4_invalid_proof_no_partial_write (s : ContractState) (r : Nat) (c : Bool)
    (h1 : s.requestToSolutionId r ≠ 0)
    (h2 : (s.solutionVerifications (s.requestToSolutionId r)).isRevealed = false) :
    decryptVerification s r c false = .error .InvalidProof
    ∧ decryptVerificationFinal s r c false = s := by
  have he : decryptVerification s r c false = .error .InvalidProof := by
    simp [decryptVerification, h1, h2]
  refine ⟨he, ?_⟩
  simp [decryptVerificationFinal, he]

/-- Witness for claim C4 at the concrete pending scenario, request id 7. -/
theorem c4_invalid_proof_no_partial_write_witness :
    (wPendingState.requestToSolutionId 7 ≠ 0
      ∧ (wPendingState.solutionVerifications (wPendingState.requestToSolutionId 7)).isRevealed
          = false)
    ∧ (decryptVerification wPendingState 7 true false = .error .InvalidProof
      ∧ decryptVerificationFinal wPendingState 7 true false = wPendingState) :=
  ⟨⟨by decide, by decide⟩,
    c4_invalid_proof_no_partial_write wPendingState 7 true (by decide) (by decide)⟩

/-- Claim C8: a callback whose request id has no pending mapping reads the
mapping default 0 and fails with `UnknownRequest`; the sentinel is sound
because submission allocates identifiers sequentially from 1 (the stored
solution id is `solutionCount + 1`, never 0, with `solutionCount` starting
at 0 on a fresh contract). -/
theorem c8_unknown_request_guard (s : ContractState) (r : Nat) (c p : Bool)
    (m : Nat) (px py : List Nat)
    (h : s.requestToSolutionId r = 0) :
    decryptVerification s r c p = .error .UnknownRequest
    ∧ ((submitEncryptedSolution s m px py).1.encryptedSolutions (s.solutionCount + 1)).solutionId
        = s.solutionCount + 1
    ∧ s.solutionCount + 1 ≠ 0
    ∧ initialState.solutionCount = 0 := by
  refine ⟨?_, ?_, by omega, rfl⟩
  · simp [decryptVerification, h]
  · simp [submitEncryptedSolution, mapSet]

/-- Witness for claim C8: a fresh contract and the never-issued request id 5. -/
theorem c8_unknown_request_guard_witness :
    initialState.requestToSolutionId 5 = 0
    ∧ (decryptVerification initialState 5 true true = .error .UnknownRequest
      ∧ ((submitEncryptedSolution initialState 999 [] []).1.encryptedSolutions
            (initialState.solutionCount + 1)).solutionId = initialState.solutionCount + 1
      ∧ initialState.solutionCount + 1 ≠ 0
      ∧ initialState.solutionCount = 0) :=
  ⟨by decide, c8_unknown_request_guard initialState 5 true true 999 [] [] (by decide)⟩

/-- Claim C9 counterexample: the claim says a successful resolve removes the
pending entry for the request id.  In the concrete pending scenario the
resolve with request id 7 succeeds, yet afterwards `requestToSolutionId[7]`
still maps to solution 1 — the code never deletes the entry. -/
theorem c9_pending_entry_kept :
    wPendingState.requestToSolutionId 7 = 1
    ∧ exceptOk (decryptVerification wPendingState 7 true true) = true
    ∧ (decryptVerificationFinal wPendingState 7 true true).requestToSolutionId 7 = 1 := by
  decide

/-- Claim C9 amended: a successful resolve leaves the pending-request map
pointwise unchanged — the entry is never removed; replay of the same request
id is blocked only by the `AlreadyVerified` guard on the revealed record. -/
theorem c9_resolve_keeps_pending_map (s : ContractState) (r : Nat) (c p : Bool) (q : Nat)
    (h : exceptOk (decryptVerification s r c p) = true) :
    (decryptVerificationFinal s r c p).requestToSolutionId q = s.requestToSolutionId q := by
  by_cases h0 : s.requestToSolutionId r = 0
  · simp [decryptVerification, h0, exceptOk] at h
  · by_cases h1 : (s.solutionVerifications (s.requestToSolutionId r)).isRevealed = true
    · simp [decryptVerification, h0, h1, exceptOk] at h
    · by_cases h2 : p = false
      · simp [decryptVerification, h0, h1, h2, exceptOk] at h
      · simp [decryptVerificationFinal, decryptVerification, h0, h1, h2]

/-- Witness for claim C9 amended, at the concrete pending scenario. -/
theorem c9_resolve_keeps_pending_map_witness :
    exceptOk (decryptVerification wPendingState 7 true true) = true
    ∧ (decryptVerificationFinal wPendingState 7 true true).requestToSolutionId 7
        = wPendingState.requestToSolutionId 7 :=
  ⟨by decide, c9_resolve_keeps_pending_map wPendingState 7 true true 7 (by decide)⟩

/-- Claim C10: calling `verifySolution` on a solution id whose stored path
arrays are empty — every never-allocated id in particular, since the mapping
default has empty arrays — reverts with the array-bounds panic on reading
path element 0 (modelled as `none`, distinct from every named error), so no
decryption request is issued and the storage, the pending map included, is
unchanged. -/
theorem c10_missing_solution_reverts (s : ContractState) (sid r : Nat)
    (h : (s.encryptedSolutions sid).encryptedPathX = []) :
    verifySolution s sid r = none ∧ verifySolutionFinal s sid r = s := by
  have he : verifySolution s sid r = none := by
    simp [verifySolution, runCircuit, h]
  exact ⟨he, by simp [verifySolutionFinal, he]⟩

/-- Witness for claim C10: the never-allocated solution id 42 on a fresh
contract. -/
theorem c10_missing_solution_reverts_witness :
    (initialState.encryptedSolutions 42).encryptedPathX = []
    ∧ (verifySolution initialState 42 9 = none
      ∧ verifySolutionFinal initialState 42 9 = initialState) :=
  ⟨by decide, c10_missing_solution_reverts initialState 42 9 (by decide)⟩

/-- Helper: the verification loop returns its accumulator once the index has
reached the path length. -/
theorem verifyLoop_done (maze : EncryptedMaze) (pathX pathY : List Nat)
    (fuel i : Nat) (h : pathX.length ≤ i) (acc : Bool) :
    verifyLoop maze pathX pathY fuel i acc = some acc := by
  cases fuel with
  | zero => rfl
  | succ n => simp [verifyLoop, Nat.not_lt.mpr h]

/-- Helper: when the two path arrays have equal length and the grid has a
cell at (0,0), the verification loop never panics. -/
theorem verifyLoop_isSome (maze : EncryptedMaze) (pathX pathY : List Nat)
    (hlen : pathY.length = pathX.length) (hg : (gridCell00 maze).isSome = true) :
    ∀ fuel i acc, (verifyLoop maze pathX pathY fuel i acc).isSome = true := by
  intro fuel
  induction fuel with
  | zero => intro i acc; simp [verifyLoop]
  | succ n ih =>
    intro i acc
    by_cases hi : i < pathX.length
    · have hip : i - 1 < pathX.length := Nat.lt_of_le_of_lt (Nat.sub_le i 1) hi
      have hiY : i < pathY.length := by rw [hlen]; exact hi
      have hipY : i - 1 < pathY.length := by rw [hlen]; exact hip
      obtain ⟨cell, hc⟩ := Option.isSome_iff_exists.mp hg
      simp only [verifyLoop, if_pos hi, List.get?_eq_get hi, List.get?_eq_get hip,
        List.get?_eq_get hiY, List.get?_eq_get hipY, hc]
      exact ih (i + 1) _
    · rw [verifyLoop_done maze pathX pathY (n + 1) i (Nat.le_of_not_lt hi) acc]
      rfl

/-- Helper: the circuit of `verifySolution` is built without a panic whenever
the path arrays are non-empty with equal length and either the grid has a
cell at (0,0) or the path is a single point (so the loop body never runs). -/
theorem runCircuit_isSome (maze : EncryptedMaze) (pathX pathY : List Nat)
    (hlen : pathY.length = pathX.length) (hpos : 0 < pathX.length)
    (hg : (gridCell00 maze).isSome = true ∨ pathX.length = 1) :
    (runCircuit maze pathX pathY).isSome = true := by
  have h0 : 0 < pathY.length := by rw [hlen]; exact hpos
  have hlast : pathX.length - 1 < pathX.length := Nat.sub_lt hpos Nat.one_pos
  have hlastY : pathX.length - 1 < pathY.length := by rw [hlen]; exact hlast
  rcases hg with hg | hg
  · simp only [runCircuit, List.get?_eq_get hpos, List.get?_eq_get h0,
      List.get?_eq_get hlast, List.get?_eq_get hlastY]
    exact verifyLoop_isSome maze pathX pathY hlen hg _ _ _
  · simp only [runCircuit, List.get?_eq_get hpos, List.get?_eq_get h0,
      List.get?_eq_get hlast, List.get?_eq_get hlastY,
      verifyLoop_done maze pathX pathY pathX.length 1 (by omega)]
    rfl

/-- Claim C7 counterexample: the claim says `verifySolution` fails with
`AlreadyVerified` on a revealed solution and with `UnknownMaze` on a missing
maze.  In the orphan scenario both preconditions are violated at once — no
maze was ever created and solution 1 is already revealed — yet the call
still builds the circuit and records a fresh pending entry for request 8. -/
theorem c7_checks_absent :
    orphanSubmitState.mazeCount = 0
    ∧ (orphanRevealedState.solutionVerifications 1).isRevealed = true
    ∧ (verifySolution orphanRevealedState 1 8).isSome = true
    ∧ (verifySolutionFinal orphanRevealedState 1 8).requestToSolutionId 8 = 1 := by decide

/-- Claim C7 amended: `verifySolution` checks neither `isRevealed` nor maze
existence.  For every state whose stored path arrays at the given id are
non-empty, of equal length, and either reference a maze whose grid has a
cell at (0,0) or consist of a single point, the call succeeds and records
the pending entry — with no assumption that the maze exists or that the
solution is unrevealed; it can only revert through an array-bounds panic. -/
theorem c7_no_precondition_checks (s : ContractState) (sid r : Nat)
    (hlen : (s.encryptedSolutions sid).encryptedPathY.length
        = (s.encryptedSolutions sid).encryptedPathX.length)
    (hpos : 0 < (s.encryptedSolutions sid).encryptedPathX.length)
    (hg : (gridCell00 (s.encryptedMazes (s.encryptedSolutions sid).mazeId)).isSome = true
        ∨ (s.encryptedSolutions sid).encryptedPathX.length = 1) :
    (verifySolution s sid r).isSome = true
    ∧ (verifySolutionFinal s sid r).requestToSolutionId r = sid := by
  have h := runCircuit_isSome (s.encryptedMazes (s.encryptedSolutions sid).mazeId)
    (s.encryptedSolutions sid).encryptedPathX (s.encryptedSolutions sid).encryptedPathY
    hlen hpos hg
  obtain ⟨b, hb⟩ := Option.isSome_iff_exists.mp h
  constructor
  · simp [verifySolution, hb]
  · simp [verifySolutionFinal, verifySolution, hb, mapSet]

/-- Witness for claim C7 amended: the orphan scenario, where the maze is
missing and the solution already revealed, still yields a pending entry. -/
theorem c7_no_precondition_checks_witness :
    ((orphanRevealedState.encryptedSolutions 1).encryptedPathY.length
        = (orphanRevealedState.encryptedSolutions 1).encryptedPathX.length
      ∧ 0 < (orphanRevealedState.encryptedSolutions 1).encryptedPathX.length
      ∧ (orphanRevealedState.encryptedSolutions 1).encryptedPathX.length = 1)
    ∧ ((verifySolution orphanRevealedState 1 8).isSome = true
      ∧ (verifySolutionFinal orphanRevealedState 1 8).requestToSolutionId 8 = 1) :=
  ⟨⟨by decide, by decide, by decide⟩,
    c7_no_precondition_checks orphanRevealedState 1 8 (by decide) (by decide)
      (Or.inr (by decide))⟩
